import Mathlib

/-!
Verification development for the PixiSkia-App renderer (`src/SkiaRenderer.ts`,
`src/main.ts`).  The renderer walks a PIXI scene graph and re-projects it into
three consumers: a Skia raster surface (`render`/`renderContainer`/
`renderGraphics`/`renderSprite`), a jsPDF document (`exportToPDF`/
`addSpriteToPDF`), and a pointer hit-tester (`setupPointerEvents`).

The embedding below models coordinates as rationals (the source uses JS
numbers; the properties checked are exact algebraic identities).  Calls into
the Skia canvas and the jsPDF document are modelled as explicit operation
traces (`SkOp`, `DocOp`); the asynchronous raster walk is modelled as an event
trace (`Ev`) threading the image cache.  `Math.cos`/`Math.sin` (used only in
the analytic-rotation branches) are passed in as function parameters
`cosD sinD : ℚ → ℚ` taking the angle in degrees.
-/

namespace PixiSkia

/-- `graphics.transform.worldTransform`: the fields the renderer reads
(`a` = composed x-scale, `d` = composed y-scale, `tx`/`ty` = composed
translation; `b`/`c` are never read by the source). -/
structure Mat where
  a : ℚ
  d : ℚ
  tx : ℚ
  ty : ℚ
deriving DecidableEq

/-- A PIXI rectangle, used for `getBounds()` results. -/
structure Rect4 where
  x : ℚ
  y : ℚ
  w : ℚ
  h : ℚ
deriving DecidableEq

/-- A 2-D point (`position`, `scale`). -/
structure Pt where
  x : ℚ
  y : ℚ
deriving DecidableEq

/-- `data.lineStyle`: visibility flag, packed 0xRRGGBB color, stroke width. -/
structure LineStyle where
  visible : Bool
  color : ℕ
  width : ℚ
deriving DecidableEq

/-- `data.fillStyle`: visibility flag and packed 0xRRGGBB color. -/
structure FillStyle where
  visible : Bool
  color : ℕ
deriving DecidableEq

/-- `data.shape`: the source discriminates with `instanceof PIXI.Rectangle`,
`instanceof PIXI.Circle`, and falls through to the polyline/polygon case. -/
inductive ShapeData where
  | rect (x y w h : ℚ)
  | circle (x y r : ℚ)
  | poly
deriving DecidableEq

/-- One entry of `graphics.geometry.graphicsData`. -/
structure GraphicsData where
  lineStyle : LineStyle
  fillStyle : FillStyle
  shape : ShapeData
  points : List ℚ
deriving DecidableEq

/-- The fields of a `PIXI.Graphics` node that the renderer reads.
`bounds` stands for `getBounds()`, which is computed by the external PIXI
library and is treated as node data here. -/
structure Graphics where
  graphicsData : List GraphicsData
  worldTransform : Mat
  angle : ℚ
  position : Pt
  scale : Pt
  bounds : Rect4
deriving DecidableEq

/-- The fields of a `PIXI.Sprite` node that the renderer reads.
`url` models `sprite.texture.baseTexture.resource.url` (`none` = missing). -/
structure Sprite where
  url : Option String
  texWidth : ℚ
  texHeight : ℚ
  worldTransform : Mat
  angle : ℚ
  worldAlpha : ℚ
  tint : ℕ
  bounds : Rect4
deriving DecidableEq

/-- A scene-graph node: the three `instanceof` cases of the walkers. -/
inductive Node where
  | graphics (g : Graphics)
  | sprite (s : Sprite)
  | container (children : List Node)

/-- An operation issued against the Skia canvas / surface.  `rotateDeg`
carries the angle in degrees (the source converts to radians at the call:
`rotate(angle * Math.PI / 180, cx, cy)`).  Draw ops carry the packed color
that the source feeds through `convertColor`. -/
inductive SkOp where
  | save
  | restore
  | clear
  | rotateDeg (angleDeg cx cy : ℚ)
  | drawPolyline (pts : List (ℚ × ℚ)) (color : ℕ) (width : ℚ)
  | drawRect (x y w h : ℚ) (color : ℕ)
  | drawCircle (cx cy radius : ℚ) (color : ℕ)
  | drawImageRect (url : String) (x y w h : ℚ)
deriving DecidableEq

/-- `Math.abs`. -/
def mathAbs (q : ℚ) : ℚ := if q < 0 then -q else q

/-- x-coordinate of `bounds.x + bounds.width / 2`. -/
def boundsCenterX (r : Rect4) : ℚ := r.x + r.w / 2

/-- y-coordinate of `bounds.y + bounds.height / 2`. -/
def boundsCenterY (r : Rect4) : ℚ := r.y + r.h / 2

/-- The `moveTo`/`lineTo` loop of `renderGraphics`: every coordinate pair of
`data.points` is translated by `(tx, ty)` (never scaled). -/
def translatePts (tx ty : ℚ) : List ℚ → List (ℚ × ℚ)
  | x :: y :: rest => (tx + x, ty + y) :: translatePts tx ty rest
  | _ => []

/-- The `data.lineStyle.visible` branch of `renderGraphics` (lines 109-152):
guarded by `points.length >= 4`; `save`+`rotate` about the bounds center only
when `angle !== 0`, then `drawPath`, then an unconditional `restore`. -/
def lineOps (g : Graphics) (d : GraphicsData) : List SkOp :=
  if d.lineStyle.visible = true then
    if 4 ≤ d.points.length then
      (if g.angle ≠ 0 then
        [SkOp.save, SkOp.rotateDeg g.angle (boundsCenterX g.bounds) (boundsCenterY g.bounds)]
      else []) ++
      [SkOp.drawPolyline (translatePts g.worldTransform.tx g.worldTransform.ty d.points)
        d.lineStyle.color d.lineStyle.width,
       SkOp.restore]
    else []
  else []

/-- The `PIXI.Rectangle` branch of `renderGraphics` (lines 155-213):
`x = tx + shape.x`, `y = ty + shape.y`, `width = shape.width * a`,
`height = shape.height * d`; with nonzero angle the draw is wrapped in
`save`/`rotate`(about the rect center)/`restore`. -/
def rectOps (g : Graphics) (x y w h : ℚ) (fs : FillStyle) : List SkOp :=
  let X := g.worldTransform.tx + x
  let Y := g.worldTransform.ty + y
  let W := w * g.worldTransform.a
  let H := h * g.worldTransform.d
  let fill := if fs.visible = true then [SkOp.drawRect X Y W H fs.color] else []
  if g.angle ≠ 0 then
    SkOp.save :: SkOp.rotateDeg g.angle (X + W / 2) (Y + H / 2) :: (fill ++ [SkOp.restore])
  else fill

/-- The `PIXI.Circle` branch of `renderGraphics` (lines 215-265):
center `(tx + shape.x, ty + shape.y)`, radius `shape.radius * Math.abs(a)`;
with nonzero angle the draw is wrapped in `save`/`rotate`(about the
center)/`restore`. -/
def circleOps (g : Graphics) (x y r : ℚ) (fs : FillStyle) : List SkOp :=
  let X := g.worldTransform.tx + x
  let Y := g.worldTransform.ty + y
  let R := r * mathAbs g.worldTransform.a
  let fill := if fs.visible = true then [SkOp.drawCircle X Y R fs.color] else []
  if g.angle ≠ 0 then
    SkOp.save :: SkOp.rotateDeg g.angle X Y :: (fill ++ [SkOp.restore])
  else fill

/-- Dispatch on `data.shape` for the fill branches of `renderGraphics`. -/
def shapeOps (g : Graphics) (d : GraphicsData) : List SkOp :=
  match d.shape with
  | ShapeData.rect x y w h => rectOps g x y w h d.fillStyle
  | ShapeData.circle x y r => circleOps g x y r d.fillStyle
  | ShapeData.poly => []

/-- The body of the `graphicsData.forEach` in `renderGraphics`: the line
branch runs first, then the shape branch. -/
def renderGraphicsData (g : Graphics) (d : GraphicsData) : List SkOp :=
  lineOps g d ++ shapeOps g d

/-- `renderGraphics`: iterate all graphics data entries. -/
def renderGraphicsOps (g : Graphics) : List SkOp :=
  (g.graphicsData.map (renderGraphicsData g)).flatten

/-- The canvas operations of `renderSprite` (lines 273-347): skip when the
sprite has no URL; otherwise `save`, an optional `rotate` about the bounds
center, `drawImageRect` with destination `(tx, ty, texW * a, texH * d)`, and
`restore`.  (The tint/alpha color filter configures the paint, not the
canvas, and `srcRect` is the full intrinsic image bounds.) -/
def renderSpriteOps (s : Sprite) : List SkOp :=
  match s.url with
  | none => []
  | some u =>
    SkOp.save ::
      ((if s.angle ≠ 0 then
          [SkOp.rotateDeg s.angle (boundsCenterX s.bounds) (boundsCenterY s.bounds)]
        else []) ++
       [SkOp.drawImageRect u s.worldTransform.tx s.worldTransform.ty
          (s.texWidth * s.worldTransform.a) (s.texHeight * s.worldTransform.d),
        SkOp.restore])

/-- An event of the asynchronous raster walk: a canvas operation, the start /
completion of an image load for a URL, or the terminal surface flush. -/
inductive Ev where
  | op (o : SkOp)
  | loadStart (url : String)
  | loadDone (url : String)
  | flush
deriving DecidableEq

/-- `renderSprite`, as an event trace threading the `imageCache` key set:
on a cache miss the walk starts the load, suspends until it completes, caches
it, and only then issues the sprite's draw operations (the `await` in
`renderContainer` is sequential).  Models the successful-load path; a load
failure is caught and merely logged by the source. -/
def renderSpriteEv (cache : List String) (s : Sprite) : List Ev × List String :=
  match s.url with
  | none => ([], cache)
  | some u =>
    if u ∈ cache then ((renderSpriteOps s).map Ev.op, cache)
    else (Ev.loadStart u :: Ev.loadDone u :: (renderSpriteOps s).map Ev.op, u :: cache)

mutual

/-- One child of the `renderContainer` loop: graphics draw synchronously,
sprites are awaited, nested containers are walked recursively. -/
def renderNodeEv (cache : List String) : Node → List Ev × List String
  | Node.graphics g => ((renderGraphicsOps g).map Ev.op, cache)
  | Node.sprite s => renderSpriteEv cache s
  | Node.container cs => renderContainerEv cache cs

/-- The `for (const child of container.children)` loop of `renderContainer`:
children are processed strictly in order, each one's `await` completing
before the next child starts. -/
def renderContainerEv (cache : List String) : List Node → List Ev × List String
  | [] => ([], cache)
  | c :: cs =>
    let p := renderNodeEv cache c
    let q := renderContainerEv p.2 cs
    (p.1 ++ q.1, q.2)

end

/-- `render`: clear the surface (`save`/`drawColor`/`restore`), walk the
container, and flush once the whole walk has resolved. -/
def renderEv (cache : List String) (root : Node) : List Ev × List String :=
  let p := renderNodeEv cache root
  (Ev.op SkOp.save :: Ev.op SkOp.clear :: Ev.op SkOp.restore :: p.1 ++ [Ev.flush], p.2)

/-- The image-cache state: URLs whose loads have completed (`imageCache`
keys), the number of underlying fetches started so far (each `img.src = url`
assignment), and the URLs whose fetches have started but not yet completed. -/
structure CacheSt where
  cached : List String
  fetches : ℕ
  inFlight : List String
deriving DecidableEq

/-- The synchronous prefix of requesting an image (`renderSprite` lines
282-286 plus `loadImage` lines 353-360): the cache is consulted (`get` /
`has`), and on a miss a new `Image` is created and its fetch starts
immediately.  Nothing records the in-flight load in `imageCache`, which is
only written when a load completes. -/
def loadImageStart (st : CacheSt) (url : String) : CacheSt :=
  if url ∈ st.cached then st
  else { st with fetches := st.fetches + 1, inFlight := url :: st.inFlight }

/-- The `img.onload` completion (`loadImage` lines 362-374): the decoded
image is cached and the promise resolves. -/
def loadImageComplete (st : CacheSt) (url : String) : CacheSt :=
  { st with cached := url :: st.cached, inFlight := st.inFlight.erase url }

/-- A primitive emitted into the jsPDF document. -/
inductive DocOp where
  | line (x1 y1 x2 y2 : ℚ) (rgb : ℕ × ℕ × ℕ) (width : ℚ)
  | rect (x y w h : ℚ) (rgb : ℕ × ℕ × ℕ)
  | circle (cx cy radius : ℚ) (rgb : ℕ × ℕ × ℕ)
  | image (url : String) (x y w h angleDeg : ℚ)
deriving DecidableEq

/-- `convertToRGB`: unpack a 0xRRGGBB color into its byte channels. -/
def convertToRGB (color : ℕ) : ℕ × ℕ × ℕ :=
  ((color >>> 16) &&& 0xFF, (color >>> 8) &&& 0xFF, color &&& 0xFF)

/-- Rotate `(x, y)` about `(cx, cy)` given the cosine `c` and sine `s` of the
rotation angle — the 2-D rotation formula the exporter and hit tester inline:
`cx + dx*cos - dy*sin`, `cy + dx*sin + dy*cos`. -/
def rotatePt (c s cx cy x y : ℚ) : ℚ × ℚ :=
  (cx + (x - cx) * c - (y - cy) * s, cy + (x - cx) * s + (y - cy) * c)

/-- The line branch of `exportToPDF`'s per-graphics loop (lines 456-489):
only the first two points are used; endpoints are translated (never scaled)
and, when the angle is nonzero, analytically rotated about the segment
midpoint. -/
def exportLineOps (cosD sinD : ℚ → ℚ) (g : Graphics) (d : GraphicsData) : List DocOp :=
  if d.lineStyle.visible = true ∧ 4 ≤ d.points.length then
    let x1 := g.worldTransform.tx + d.points.getD 0 0
    let y1 := g.worldTransform.ty + d.points.getD 1 0
    let x2 := g.worldTransform.tx + d.points.getD 2 0
    let y2 := g.worldTransform.ty + d.points.getD 3 0
    if g.angle ≠ 0 then
      let cx := (x1 + x2) / 2
      let cy := (y1 + y2) / 2
      let p := rotatePt (cosD g.angle) (sinD g.angle) cx cy x1 y1
      let q := rotatePt (cosD g.angle) (sinD g.angle) cx cy x2 y2
      [DocOp.line p.1 p.2 q.1 q.2 (convertToRGB d.lineStyle.color) d.lineStyle.width]
    else
      [DocOp.line x1 y1 x2 y2 (convertToRGB d.lineStyle.color) d.lineStyle.width]
  else []

/-- The shape branch of `exportToPDF`'s per-graphics loop (lines 492-543):
rectangles use `(tx + shape.x, ty + shape.y, w * a, h * d)`; circles use
center `(tx + shape.x, ty + shape.y)` and radius `shape.radius * Math.abs(a)`;
with nonzero angle the reference point is analytically rotated about the
bounds center.  Emission requires `fillStyle.visible`. -/
def exportShapeOps (cosD sinD : ℚ → ℚ) (g : Graphics) (d : GraphicsData) : List DocOp :=
  match d.shape with
  | ShapeData.rect x y w h =>
    let X := g.worldTransform.tx + x
    let Y := g.worldTransform.ty + y
    let W := w * g.worldTransform.a
    let H := h * g.worldTransform.d
    if d.fillStyle.visible = true then
      let p :=
        if g.angle ≠ 0 then
          rotatePt (cosD g.angle) (sinD g.angle)
            (boundsCenterX g.bounds) (boundsCenterY g.bounds) X Y
        else (X, Y)
      [DocOp.rect p.1 p.2 W H (convertToRGB d.fillStyle.color)]
    else []
  | ShapeData.circle x y r =>
    let X := g.worldTransform.tx + x
    let Y := g.worldTransform.ty + y
    let R := r * mathAbs g.worldTransform.a
    if d.fillStyle.visible = true then
      let p :=
        if g.angle ≠ 0 then
          rotatePt (cosD g.angle) (sinD g.angle)
            (boundsCenterX g.bounds) (boundsCenterY g.bounds) X Y
        else (X, Y)
      [DocOp.circle p.1 p.2 R (convertToRGB d.fillStyle.color)]
    else []
  | ShapeData.poly => []

/-- One `graphicsData` entry of the export loop: line branch then shape
branch. -/
def exportGraphicsData (cosD sinD : ℚ → ℚ) (g : Graphics) (d : GraphicsData) : List DocOp :=
  exportLineOps cosD sinD g d ++ exportShapeOps cosD sinD g d

/-- All document primitives of one graphics child. -/
def exportGraphicsOps (cosD sinD : ℚ → ℚ) (g : Graphics) : List DocOp :=
  (g.graphicsData.map (exportGraphicsData cosD sinD g)).flatten

/-- `addSpriteToPDF` (lines 386-432): its own fetch + base64 encode (not the
image cache), destination `(tx, ty, texW * a, texH * d)`, with the corner
analytically rotated about the bounds center when the angle is nonzero, and
the raw angle forwarded to `doc.addImage`.  Models the successful-fetch
path; a fetch failure is caught and the sprite omitted. -/
def addSpriteToPDFOps (cosD sinD : ℚ → ℚ) (s : Sprite) : List DocOp :=
  match s.url with
  | none => []
  | some u =>
    let x := s.worldTransform.tx
    let y := s.worldTransform.ty
    let w := s.texWidth * s.worldTransform.a
    let h := s.texHeight * s.worldTransform.d
    let p :=
      if s.angle ≠ 0 then
        rotatePt (cosD s.angle) (sinD s.angle)
          (boundsCenterX s.bounds) (boundsCenterY s.bounds) x y
      else (x, y)
    [DocOp.image u p.1 p.2 w h s.angle]

/-- One child of `exportToPDF`'s `processContainer` loop (lines 447-552).
The result is (document primitives, raster-canvas events, image cache):
graphics and sprites emit document primitives, but a nested
`PIXI.Container` child is handed to `this.renderContainer(child)` — the
Raster Painter — so its content produces raster-canvas events and no
document primitives. -/
def exportChildPDF (cosD sinD : ℚ → ℚ) (cache : List String) :
    Node → List DocOp × List Ev × List String
  | Node.graphics g => (exportGraphicsOps cosD sinD g, [], cache)
  | Node.sprite s => (addSpriteToPDFOps cosD sinD s, [], cache)
  | Node.container cs =>
    let p := renderContainerEv cache cs
    ([], p.1, p.2)

/-- The `for (const child of container.children)` loop of `processContainer`. -/
def exportListPDF (cosD sinD : ℚ → ℚ) (cache : List String) :
    List Node → List DocOp × List Ev × List String
  | [] => ([], [], cache)
  | c :: cs =>
    let p := exportChildPDF cosD sinD cache c
    let q := exportListPDF cosD sinD p.2.2 cs
    (p.1 ++ q.1, p.2.1 ++ q.2.1, q.2.2)

/-- `exportToPDF`: `processContainer(this.container)` over the root's direct
children, returning the document primitives together with any raster-canvas
events issued along the way. -/
def exportToPDF (cosD sinD : ℚ → ℚ) (cache : List String) (rootChildren : List Node) :
    List DocOp × List Ev × List String :=
  exportListPDF cosD sinD cache rootChildren

/-- `PIXI.Rectangle.contains(x, y)` (external library, as consumed by
`hitTest`): false for empty rectangles, else a half-open bounds check. -/
def rectContains (r : Rect4) (px py : ℚ) : Bool :=
  if r.w ≤ 0 ∨ r.h ≤ 0 then false
  else decide (r.x ≤ px ∧ px < r.x + r.w ∧ r.y ≤ py ∧ py < r.y + r.h)

/-- The per-shape containment checks of `hitTest`'s `graphicsData.some`
(lines 609-631): rectangles check the node's position plus the shape offset
against width/height scaled by the node's own scale; circles compare
`Math.sqrt(dx*dx + dy*dy) <= radius * scale.x`, written here in the
equivalent squared form together with the sign of `radius * scale.x`;
anything else hits whenever at least 4 point coordinates exist. -/
def shapeHit (g : Graphics) (px py : ℚ) (d : GraphicsData) : Bool :=
  match d.shape with
  | ShapeData.rect x y w h =>
    let X := g.position.x + x
    let Y := g.position.y + y
    decide (X ≤ px ∧ px ≤ X + w * g.scale.x ∧ Y ≤ py ∧ py ≤ Y + h * g.scale.y)
  | ShapeData.circle x y r =>
    let cX := g.position.x + x
    let cY := g.position.y + y
    let dx := px - cX
    let dy := py - cY
    decide (0 ≤ r * g.scale.x ∧ dx * dx + dy * dy ≤ (r * g.scale.x) * (r * g.scale.x))
  | ShapeData.poly => decide (4 ≤ d.points.length)

/-- `hitTest` (lines 583-632): reject by `getBounds()`, inverse-rotate the
point about the bounds center by the negative angle when the node is
rotated, then test each drawn shape. -/
def hitTest (cosD sinD : ℚ → ℚ) (px py : ℚ) (g : Graphics) : Bool :=
  if rectContains g.bounds px py = false then false
  else
    let p :=
      if g.angle ≠ 0 then
        rotatePt (cosD (-g.angle)) (sinD (-g.angle))
          (boundsCenterX g.bounds) (boundsCenterY g.bounds) px py
      else (px, py)
    g.graphicsData.any (shapeHit g p.1 p.2)

/-- The pointer event kinds dispatched by `setupPointerEvents`. -/
inductive EvKind where
  | down
  | up
deriving DecidableEq

/-- The synthetic event built for `child.emit` (type, target node, global
point). -/
structure PtrEvent where
  kind : EvKind
  target : Node
  globalX : ℚ
  globalY : ℚ

/-- The handler loop body shared by the `pointerdown` / `pointerup`
listeners: scan a child list, skipping everything that is not a
`PIXI.Graphics`, and return the first graphics child passing `hitTest`. -/
def findHit (hit : Graphics → Bool) : List Node → Option Node
  | [] => none
  | Node.graphics g :: rest => if hit g then some (Node.graphics g) else findHit hit rest
  | _ :: rest => findHit hit rest

/-- A pointer listener of `setupPointerEvents` (lines 635-686): children are
scanned in reverse order; the first hit receives exactly one synthetic
event and the loop breaks; no hit dispatches nothing. -/
def pointerHandler (cosD sinD : ℚ → ℚ) (k : EvKind) (px py : ℚ)
    (children : List Node) : List PtrEvent :=
  match findHit (hitTest cosD sinD px py) children.reverse with
  | some n => [⟨k, n, px, py⟩]
  | none => []

/-- Whether a node is a `PIXI.Graphics` node. -/
def Node.isGraphicsNode : Node → Bool
  | Node.graphics _ => true
  | _ => false

/-- Saves issued to the canvas in a list of operations. -/
def saves : List SkOp → ℕ
  | [] => 0
  | o :: rest => (match o with | SkOp.save => 1 | _ => 0) + saves rest

/-- Restores issued to the canvas in a list of operations. -/
def restores : List SkOp → ℕ
  | [] => 0
  | o :: rest => (match o with | SkOp.restore => 1 | _ => 0) + restores rest

/-- Whether an operation actually draws (as opposed to manipulating the
canvas state). -/
def isDrawOp : SkOp → Bool
  | SkOp.drawPolyline _ _ _ => true
  | SkOp.drawRect _ _ _ _ _ => true
  | SkOp.drawCircle _ _ _ _ => true
  | SkOp.drawImageRect _ _ _ _ _ => true
  | _ => false

/-- The drawing operations of a trace. -/
def drawOps (ops : List SkOp) : List SkOp := ops.filter isDrawOp

/-- Geometry of the rectangles drawn on the raster surface. -/
def rasterRects (ops : List SkOp) : List (ℚ × ℚ × ℚ × ℚ) :=
  ops.filterMap fun o =>
    match o with
    | SkOp.drawRect x y w h _ => some (x, y, w, h)
    | _ => none

/-- Centers and radii of the circles drawn on the raster surface. -/
def rasterCircles (ops : List SkOp) : List (ℚ × ℚ × ℚ) :=
  ops.filterMap fun o =>
    match o with
    | SkOp.drawCircle cx cy r _ => some (cx, cy, r)
    | _ => none

/-- Radii of the circles drawn on the raster surface. -/
def rasterCircleRadii (ops : List SkOp) : List ℚ :=
  ops.filterMap fun o =>
    match o with
    | SkOp.drawCircle _ _ r _ => some r
    | _ => none

/-- Geometry of the filled rectangles emitted into the document. -/
def docRects (ops : List DocOp) : List (ℚ × ℚ × ℚ × ℚ) :=
  ops.filterMap fun o =>
    match o with
    | DocOp.rect x y w h _ => some (x, y, w, h)
    | _ => none

/-- Radii of the filled circles emitted into the document. -/
def docCircleRadii (ops : List DocOp) : List ℚ :=
  ops.filterMap fun o =>
    match o with
    | DocOp.circle _ _ r _ => some r
    | _ => none

/-- A constant-one stand-in for `Math.cos` (exact at angle 0). -/
def qOne : ℚ → ℚ := fun _ => 1

/-- A constant-zero stand-in for `Math.sin` (exact at angle 0). -/
def qZero : ℚ → ℚ := fun _ => 0

/-- An invisible line style (shapes drawn with fill only). -/
def lsNone : LineStyle := ⟨false, 0, 0⟩

/-- A red filled 3×4 rectangle at local offset (1,2), identity transform:
the nested shape of the export failing input. -/
def gC1 : Graphics :=
  { graphicsData := [⟨lsNone, ⟨true, 0xff0000⟩, ShapeData.rect 1 2 3 4, []⟩]
    worldTransform := ⟨1, 1, 0, 0⟩
    angle := 0
    position := ⟨0, 0⟩
    scale := ⟨1, 1⟩
    bounds := ⟨0, 0, 0, 0⟩ }

/-- A graphics node with composed scale (2,3), composed translation (10,20),
carrying a filled unit rectangle at local offset (5,7). -/
def gC2 : Graphics :=
  { graphicsData := [⟨lsNone, ⟨true, 255⟩, ShapeData.rect 5 7 1 1, []⟩]
    worldTransform := ⟨2, 3, 10, 20⟩
    angle := 0
    position := ⟨0, 0⟩
    scale := ⟨1, 1⟩
    bounds := ⟨0, 0, 0, 0⟩ }

/-- The graphics data entry of `gC2`. -/
def dC2 : GraphicsData := ⟨lsNone, ⟨true, 255⟩, ShapeData.rect 5 7 1 1, []⟩

/-- A sprite with a 10×10 texture at the origin, not yet cached. -/
def sC4 : Sprite :=
  { url := some "u.png"
    texWidth := 10
    texHeight := 10
    worldTransform := ⟨1, 1, 0, 0⟩
    angle := 0
    worldAlpha := 1
    tint := 0xFFFFFF
    bounds := ⟨0, 0, 10, 10⟩ }

/-- A sibling shape drawn after the sprite in the same walk. -/
def gC4 : Graphics :=
  { graphicsData := [⟨lsNone, ⟨true, 255⟩, ShapeData.rect 5 6 7 8, []⟩]
    worldTransform := ⟨1, 1, 0, 0⟩
    angle := 0
    position := ⟨0, 0⟩
    scale := ⟨1, 1⟩
    bounds := ⟨0, 0, 0, 0⟩ }

/-- The raster event trace of one `render` call on a container holding the
sprite `sC4` followed by the shape `gC4`, starting from an empty cache. -/
def traceC4 : List Ev :=
  (renderEv [] (Node.container [Node.sprite sC4, Node.graphics gC4])).1

/-- A filled circle of local radius 10 at offset (3,4) under composed scale
(-2, 5) and a 30-degree rotation. -/
def gC5 : Graphics :=
  { graphicsData := [⟨lsNone, ⟨true, 99⟩, ShapeData.circle 3 4 10, []⟩]
    worldTransform := ⟨-2, 5, 100, 200⟩
    angle := 30
    position := ⟨0, 0⟩
    scale := ⟨1, 1⟩
    bounds := ⟨0, 0, 40, 40⟩ }

/-- The graphics data entry of `gC5`. -/
def dC5 : GraphicsData := ⟨lsNone, ⟨true, 99⟩, ShapeData.circle 3 4 10, []⟩

/-- A filled 10×20 rectangle at offset (1,2) under composed scale (2,3) and
translation (100,200), no rotation. -/
def gC6 : Graphics :=
  { graphicsData := [⟨lsNone, ⟨true, 255⟩, ShapeData.rect 1 2 10 20, []⟩]
    worldTransform := ⟨2, 3, 100, 200⟩
    angle := 0
    position := ⟨0, 0⟩
    scale := ⟨1, 1⟩
    bounds := ⟨0, 0, 0, 0⟩ }

/-- The graphics data entry of `gC6`. -/
def dC6 : GraphicsData := ⟨lsNone, ⟨true, 255⟩, ShapeData.rect 1 2 10 20, []⟩

/-- A graphics child whose bounds do not contain the probe point (10,10). -/
def gC7miss : Graphics :=
  { graphicsData := [⟨lsNone, ⟨true, 1⟩, ShapeData.rect 0 0 10 10, []⟩]
    worldTransform := ⟨1, 1, 50, 50⟩
    angle := 0
    position := ⟨50, 50⟩
    scale := ⟨1, 1⟩
    bounds := ⟨50, 50, 10, 10⟩ }

/-- A graphics child hit by the probe point (10,10): unrotated, unit scale,
with a filled 50×50 rectangle at its origin. -/
def gC7hit : Graphics :=
  { graphicsData := [⟨lsNone, ⟨true, 2⟩, ShapeData.rect 0 0 50 50, []⟩]
    worldTransform := ⟨1, 1, 0, 0⟩
    angle := 0
    position := ⟨0, 0⟩
    scale := ⟨1, 1⟩
    bounds := ⟨0, 0, 100, 100⟩ }

/-- The root children for the pointer witnesses: `gC7hit` is added last, so
it is drawn topmost and must be tested first. -/
def csC7 : List Node := [Node.graphics gC7miss, Node.graphics gC7hit]

/-- A stroked 2-point polyline under translation (100,200) with stroke color
7 and width 2 (composed scale (9,9) is present but must not be applied). -/
def gC8 : Graphics :=
  { graphicsData := [⟨⟨true, 7, 2⟩, ⟨false, 0⟩, ShapeData.poly, [1, 2, 3, 4]⟩]
    worldTransform := ⟨9, 9, 100, 200⟩
    angle := 0
    position := ⟨0, 0⟩
    scale := ⟨1, 1⟩
    bounds := ⟨0, 0, 10, 10⟩ }

/-- The graphics data entry of `gC8`. -/
def dC8 : GraphicsData := ⟨⟨true, 7, 2⟩, ⟨false, 0⟩, ShapeData.poly, [1, 2, 3, 4]⟩

/-- A drawn polyline with angle 0: the save/restore counterexample shape. -/
def gC9 : Graphics :=
  { graphicsData := [⟨⟨true, 5, 1⟩, ⟨false, 0⟩, ShapeData.poly, [0, 0, 10, 10]⟩]
    worldTransform := ⟨1, 1, 0, 0⟩
    angle := 0
    position := ⟨0, 0⟩
    scale := ⟨1, 1⟩
    bounds := ⟨0, 0, 10, 10⟩ }

/-- The graphics data entry of `gC9`. -/
def dC9 : GraphicsData := ⟨⟨true, 5, 1⟩, ⟨false, 0⟩, ShapeData.poly, [0, 0, 10, 10]⟩

/-! ### Helper lemmas -/

theorem rasterRects_append (l1 l2 : List SkOp) :
    rasterRects (l1 ++ l2) = rasterRects l1 ++ rasterRects l2 := by
  simp [rasterRects]

theorem rasterCircles_append (l1 l2 : List SkOp) :
    rasterCircles (l1 ++ l2) = rasterCircles l1 ++ rasterCircles l2 := by
  simp [rasterCircles]

theorem docRects_append (l1 l2 : List DocOp) :
    docRects (l1 ++ l2) = docRects l1 ++ docRects l2 := by
  simp [docRects]

theorem docCircleRadii_append (l1 l2 : List DocOp) :
    docCircleRadii (l1 ++ l2) = docCircleRadii l1 ++ docCircleRadii l2 := by
  simp [docCircleRadii]

theorem rasterRects_lineOps (g : Graphics) (d : GraphicsData) :
    rasterRects (lineOps g d) = [] := by
  by_cases h1 : d.lineStyle.visible = true <;> by_cases h2 : 4 ≤ d.points.length <;>
    by_cases h3 : g.angle = 0 <;>
    simp [lineOps, rasterRects, h1, h2, h3]

theorem rasterCircles_lineOps (g : Graphics) (d : GraphicsData) :
    rasterCircles (lineOps g d) = [] := by
  by_cases h1 : d.lineStyle.visible = true <;> by_cases h2 : 4 ≤ d.points.length <;>
    by_cases h3 : g.angle = 0 <;>
    simp [lineOps, rasterCircles, h1, h2, h3]

theorem docRects_exportLineOps (cosD sinD : ℚ → ℚ) (g : Graphics) (d : GraphicsData) :
    docRects (exportLineOps cosD sinD g d) = [] := by
  by_cases h1 : d.lineStyle.visible = true ∧ 4 ≤ d.points.length <;>
    by_cases h3 : g.angle = 0 <;>
    simp [exportLineOps, docRects, h1, h3]

theorem docCircleRadii_exportLineOps (cosD sinD : ℚ → ℚ) (g : Graphics) (d : GraphicsData) :
    docCircleRadii (exportLineOps cosD sinD g d) = [] := by
  by_cases h1 : d.lineStyle.visible = true ∧ 4 ≤ d.points.length <;>
    by_cases h3 : g.angle = 0 <;>
    simp [exportLineOps, docCircleRadii, h1, h3]

theorem rasterRects_rectOps (g : Graphics) (x y w h : ℚ) (fs : FillStyle)
    (hfs : fs.visible = true) :
    rasterRects (rectOps g x y w h fs) =
      [(g.worldTransform.tx + x, g.worldTransform.ty + y,
        w * g.worldTransform.a, h * g.worldTransform.d)] := by
  by_cases h3 : g.angle = 0 <;> simp [rectOps, rasterRects, hfs, h3]

theorem rasterCircles_circleOps (g : Graphics) (x y r : ℚ) (fs : FillStyle)
    (hfs : fs.visible = true) :
    rasterCircles (circleOps g x y r fs) =
      [(g.worldTransform.tx + x, g.worldTransform.ty + y,
        r * mathAbs g.worldTransform.a)] := by
  by_cases h3 : g.angle = 0 <;> simp [circleOps, rasterCircles, hfs, h3]

theorem saves_append (l1 l2 : List SkOp) : saves (l1 ++ l2) = saves l1 + saves l2 := by
  induction l1 with
  | nil => simp [saves]
  | cons a l ih => simp [saves, ih]; omega

theorem restores_append (l1 l2 : List SkOp) :
    restores (l1 ++ l2) = restores l1 + restores l2 := by
  induction l1 with
  | nil => simp [restores]
  | cons a l ih => simp [restores, ih]; omega

theorem lineOps_counts (g : Graphics) (d : GraphicsData) :
    restores (lineOps g d) =
      saves (lineOps g d) +
        (if d.lineStyle.visible = true ∧ 4 ≤ d.points.length ∧ g.angle = 0 then 1 else 0) := by
  by_cases h1 : d.lineStyle.visible = true <;> by_cases h2 : 4 ≤ d.points.length <;>
    by_cases h3 : g.angle = 0 <;>
    simp [lineOps, saves, restores, h1, h2, h3]

theorem shapeOps_balanced (g : Graphics) (d : GraphicsData) :
    restores (shapeOps g d) = saves (shapeOps g d) := by
  rcases d with ⟨ls, fs, sh, pts⟩
  cases sh <;> by_cases h3 : g.angle = 0 <;> by_cases hf : fs.visible = true <;>
    simp [shapeOps, rectOps, circleOps, saves, restores, h3, hf]

theorem renderContainerEv_append (cache : List String) (xs ys : List Node) :
    renderContainerEv cache (xs ++ ys) =
      ((renderContainerEv cache xs).1 ++
         (renderContainerEv (renderContainerEv cache xs).2 ys).1,
       (renderContainerEv (renderContainerEv cache xs).2 ys).2) := by
  induction xs generalizing cache with
  | nil => simp [renderContainerEv]
  | cons c cs ih => simp [renderContainerEv, ih]

theorem findHit_none (hit : Graphics → Bool) :
    ∀ l : List Node, (∀ g : Graphics, Node.graphics g ∈ l → hit g = false) →
      findHit hit l = none := by
  intro l
  induction l with
  | nil => intro _; rfl
  | cons c rest ih =>
    intro hall
    cases c with
    | graphics g =>
      have hg : hit g = false := hall g (List.mem_cons_self _ _)
      simp [findHit, hg]
      exact ih fun g' hg' => hall g' (List.mem_cons_of_mem _ hg')
    | sprite s => exact ih fun g' hg' => hall g' (List.mem_cons_of_mem _ hg')
    | container cs => exact ih fun g' hg' => hall g' (List.mem_cons_of_mem _ hg')

theorem findHit_skip (hit : Graphics → Bool) :
    ∀ (pre l : List Node), (∀ g : Graphics, Node.graphics g ∈ pre → hit g = false) →
      findHit hit (pre ++ l) = findHit hit l := by
  intro pre
  induction pre with
  | nil => intro l _; rfl
  | cons c rest ih =>
    intro l hall
    cases c with
    | graphics g =>
      have hg : hit g = false := hall g (List.mem_cons_self _ _)
      simp [findHit, hg]
      exact ih l fun g' hg' => hall g' (List.mem_cons_of_mem _ hg')
    | sprite s => exact ih l fun g' hg' => hall g' (List.mem_cons_of_mem _ hg')
    | container cs => exact ih l fun g' hg' => hall g' (List.mem_cons_of_mem _ hg')

theorem findHit_isGraphics (hit : Graphics → Bool) :
    ∀ (l : List Node) (n : Node), findHit hit l = some n → n.isGraphicsNode = true := by
  intro l
  induction l with
  | nil => intro n h; simp [findHit] at h
  | cons c rest ih =>
    intro n h
    cases c with
    | graphics g =>
      by_cases hg : hit g = true
      · simp [findHit, hg] at h
        subst h
        rfl
      · rw [Bool.not_eq_true] at hg
        simp [findHit, hg] at h
        exact ih n h
    | sprite s => exact ih n h
    | container cs => exact ih n h

/-! ### Claim theorems -/

/-- C1: the claim says `exportToPDF` walks the same tree as the raster
painter and emits an equivalent document primitive for every visible shape
nested inside sub-containers, without touching the Raster Painter's surface.
The code instead hands a nested `PIXI.Container` to `this.renderContainer`,
the raster painter: on a scene whose only visible shape sits inside a
sub-container, the export produces no document primitive at all and issues
a raster draw call on the Skia surface instead.  This contradicts the
stated design (exporter independent of the raster surface) and is a slip —
the recursion was meant to call `processContainer`. -/
theorem C1_export_nested_container_bug :
    exportToPDF qOne qZero [] [Node.container [Node.graphics gC1]] =
      ([], [Ev.op (SkOp.drawRect 1 2 3 4 0xff0000)], []) := by
  norm_num [exportToPDF, exportListPDF, exportChildPDF, renderContainerEv, renderNodeEv,
    renderGraphicsOps, renderGraphicsData, lineOps, shapeOps, rectOps, gC1, lsNone]

/-- C2 (counterexample): the claim says the raster output corner is the
composed translation plus the local offset *scaled by the composed scale*.
On a rectangle with local offset (5,7), composed scale (2,3) and
translation (10,20) the code outputs corner x = 10 + 5 = 15, not
10 + 5·2 = 20. -/
theorem C2_corner_counterexample :
    rasterRects (renderGraphicsData gC2 dC2) = [(15, 27, 2, 3)] ∧
    (15 : ℚ) ≠ 10 + 5 * 2 := by
  constructor
  · norm_num [renderGraphicsData, lineOps, shapeOps, rectOps, rasterRects, gC2, dC2, lsNone,
      List.filterMap_cons, List.filterMap_nil]
  · norm_num

/-- C2 (amended): for every filled Rectangle the Raster Painter computes the
output corner as the composed translation plus the rectangle's local (x,y)
offset *unscaled*, and the output width/height as the local width and height
scaled anisotropically by the composed x-scale and y-scale respectively. -/
theorem C2_rect_corner_unscaled (g : Graphics) (ls : LineStyle) (fs : FillStyle)
    (x y w h : ℚ) (pts : List ℚ) (hfs : fs.visible = true) :
    rasterRects (renderGraphicsData g ⟨ls, fs, ShapeData.rect x y w h, pts⟩) =
      [(g.worldTransform.tx + x, g.worldTransform.ty + y,
        w * g.worldTransform.a, h * g.worldTransform.d)] := by
  rw [renderGraphicsData, rasterRects_append, rasterRects_lineOps]
  simp only [shapeOps]
  rw [rasterRects_rectOps g x y w h fs hfs]
  simp

/-- C2 (witness): the amended theorem applied to the concrete rectangle of
the counterexample. -/
theorem C2_rect_corner_unscaled_witness :
    (⟨true, 255⟩ : FillStyle).visible = true ∧
    rasterRects (renderGraphicsData gC2 dC2) = [(15, 27, 2, 3)] := by
  refine ⟨rfl, ?_⟩
  have h := C2_rect_corner_unscaled gC2 lsNone ⟨true, 255⟩ 5 7 1 1 [] rfl
  norm_num [gC2, dC2, lsNone] at h ⊢
  exact h

/-- C3 (counterexample): the claim says a second request for a URL whose
load is in flight never starts a second fetch.  Starting from an empty
cache, a first request for "img.png" starts a fetch and leaves the URL
in flight and uncached; a second request in that state starts a second
fetch (2 fetches in total). -/
theorem C3_double_fetch_counterexample :
    ("img.png" ∈ (loadImageStart ⟨[], 0, []⟩ "img.png").inFlight ∧
      (loadImageStart ⟨[], 0, []⟩ "img.png").cached = []) ∧
    (loadImageStart (loadImageStart ⟨[], 0, []⟩ "img.png") "img.png").fetches = 2 := by
  decide

/-- C3 (amended): requesting a URL that has already *completed* loading hits
the cache and performs no new fetch (in particular immediately after its
completion), but a request for an uncached URL always starts a fetch —
while the load is merely in flight the URL is not yet cached, so a second
concurrent request for the same URL starts a second fetch (no coalescing). -/
theorem C3_cache_after_completion (st : CacheSt) (url u2 : String) :
    (url ∈ st.cached → loadImageStart st url = st) ∧
    (url ∉ st.cached →
      (loadImageStart st url).fetches = st.fetches + 1 ∧
      url ∈ (loadImageStart st url).inFlight) ∧
    loadImageStart (loadImageComplete st u2) u2 = loadImageComplete st u2 := by
  refine ⟨fun hmem => ?_, fun hnot => ?_, ?_⟩
  · simp [loadImageStart, hmem]
  · simp [loadImageStart, hnot]
  · simp [loadImageStart, loadImageComplete]

/-- C3 (witness): the amended theorem at concrete states — a cached URL is
returned without a fetch, an uncached URL triggers exactly one fetch. -/
theorem C3_cache_after_completion_witness :
    loadImageStart ⟨["a.png"], 3, []⟩ "a.png" = ⟨["a.png"], 3, []⟩ ∧
    (loadImageStart ⟨[], 0, []⟩ "b.png").fetches = 1 ∧
    loadImageStart (loadImageComplete ⟨[], 0, ["c.png"]⟩ "c.png") "c.png" =
      loadImageComplete ⟨[], 0, ["c.png"]⟩ "c.png" := by
  refine ⟨(C3_cache_after_completion ⟨["a.png"], 3, []⟩ "a.png" "x").1 (by decide),
    ((C3_cache_after_completion ⟨[], 0, []⟩ "b.png" "x").2.1 (by decide)).1,
    (C3_cache_after_completion ⟨[], 0, ["c.png"]⟩ "y" "c.png").2.2⟩

/-- C4 (counterexample): the claim says sibling shape drawing proceeds
without waiting on any sprite's image load.  In the walk of a container
holding an uncached sprite followed by a rectangle, the rectangle's draw
event occurs strictly after the sprite's load-completion event — the
sibling's drawing waited on the load. -/
theorem C4_sibling_waits_counterexample :
    Ev.loadDone "u.png" ∈ traceC4 ∧ Ev.op (SkOp.drawRect 5 6 7 8 255) ∈ traceC4 ∧
    List.indexOf (Ev.loadDone "u.png") traceC4 <
      List.indexOf (Ev.op (SkOp.drawRect 5 6 7 8 255)) traceC4 := by
  have h : traceC4 =
      [Ev.op SkOp.save, Ev.op SkOp.clear, Ev.op SkOp.restore,
       Ev.loadStart "u.png", Ev.loadDone "u.png",
       Ev.op SkOp.save, Ev.op (SkOp.drawImageRect "u.png" 0 0 10 10), Ev.op SkOp.restore,
       Ev.op (SkOp.drawRect 5 6 7 8 255), Ev.flush] := by
    norm_num [traceC4, renderEv, renderNodeEv, renderContainerEv, renderSpriteEv,
      renderSpriteOps, renderGraphicsOps, renderGraphicsData, lineOps, shapeOps, rectOps,
      sC4, gC4, lsNone]
  rw [h]
  decide

/-- C4 (amended): within one raster walk the children are processed
strictly sequentially — an uncached sprite's load is started and awaited
in place, so every event of the later siblings (and the final flush)
occurs after that sprite's load completes; loads therefore complete in
walk order, and the surface flush happens only after the whole walk,
including every sprite load, has resolved. -/
theorem C4_sequential_walk (cache : List String) (pre post : List Node) (s : Sprite)
    (u : String) (hu : s.url = some u) (hnc : u ∉ (renderContainerEv cache pre).2) :
    (renderEv cache (Node.container (pre ++ Node.sprite s :: post))).1 =
      Ev.op SkOp.save :: Ev.op SkOp.clear :: Ev.op SkOp.restore ::
      ((renderContainerEv cache pre).1 ++
        ((Ev.loadStart u :: Ev.loadDone u :: (renderSpriteOps s).map Ev.op) ++
          (renderContainerEv (u :: (renderContainerEv cache pre).2) post).1)) ++
      [Ev.flush] := by
  simp [renderEv, renderNodeEv, renderContainerEv_append, renderContainerEv,
    renderSpriteEv, hu, hnc]

/-- C4 (witness): the amended theorem on the concrete sprite-then-shape
scene, evaluated to its explicit event trace. -/
theorem C4_sequential_walk_witness :
    sC4.url = some "u.png" ∧ "u.png" ∉ (renderContainerEv [] ([] : List Node)).2 ∧
    traceC4 =
      [Ev.op SkOp.save, Ev.op SkOp.clear, Ev.op SkOp.restore,
       Ev.loadStart "u.png", Ev.loadDone "u.png",
       Ev.op SkOp.save, Ev.op (SkOp.drawImageRect "u.png" 0 0 10 10), Ev.op SkOp.restore,
       Ev.op (SkOp.drawRect 5 6 7 8 255), Ev.flush] := by
  refine ⟨rfl, by simp [renderContainerEv], ?_⟩
  have h := C4_sequential_walk [] [] [Node.graphics gC4] sC4 "u.png" rfl
    (by simp [renderContainerEv])
  norm_num [traceC4, renderContainerEv, renderSpriteOps, renderGraphicsOps,
    renderGraphicsData, lineOps, shapeOps, rectOps, renderNodeEv, sC4, gC4, lsNone] at h ⊢
  exact h

/-- C5: for every filled Circle the raster painter draws at center
(translation + local offset, unscaled) with radius `localRadius × |a|`
(the composed x-scale only), and the document exporter emits a circle with
the identical radius `localRadius × |a|` — at every angle, including when
the composed y-scale differs from the x-scale. -/
theorem C5_circle_radius_both_backends (cosD sinD : ℚ → ℚ) (g : Graphics)
    (ls : LineStyle) (fs : FillStyle) (x y r : ℚ) (pts : List ℚ)
    (hfs : fs.visible = true) :
    rasterCircles (renderGraphicsData g ⟨ls, fs, ShapeData.circle x y r, pts⟩) =
      [(g.worldTransform.tx + x, g.worldTransform.ty + y,
        r * mathAbs g.worldTransform.a)] ∧
    docCircleRadii (exportGraphicsData cosD sinD g ⟨ls, fs, ShapeData.circle x y r, pts⟩) =
      [r * mathAbs g.worldTransform.a] := by
  constructor
  · rw [renderGraphicsData, rasterCircles_append, rasterCircles_lineOps]
    simp only [shapeOps]
    rw [rasterCircles_circleOps g x y r fs hfs]
    simp
  · rw [exportGraphicsData, docCircleRadii_append, docCircleRadii_exportLineOps]
    by_cases h3 : g.angle = 0 <;> simp [exportShapeOps, docCircleRadii, hfs, h3]

/-- C5 (witness): the theorem on a concrete circle with negative x-scale
(-2), y-scale 5 and a 30-degree rotation: both backends yield radius
10 × |−2| = 20. -/
theorem C5_circle_radius_witness :
    (⟨true, 99⟩ : FillStyle).visible = true ∧
    rasterCircles (renderGraphicsData gC5 dC5) = [(103, 204, 20)] ∧
    docCircleRadii (exportGraphicsData qOne qZero gC5 dC5) = [20] := by
  refine ⟨rfl, ?_⟩
  have h := C5_circle_radius_both_backends qOne qZero gC5 lsNone ⟨true, 99⟩ 3 4 10 [] rfl
  norm_num [gC5, dC5, lsNone, mathAbs] at h ⊢
  exact h

/-- C6: for every filled Rectangle with composed scale (a, d) and no
rotation, the output width is `localWidth × a` and the output height is
`localHeight × d`, exactly, in both the Raster Painter path and the
Document Exporter path (which also agree on the corner). -/
theorem C6_rect_scale_both_backends (cosD sinD : ℚ → ℚ) (g : Graphics)
    (ls : LineStyle) (fs : FillStyle) (x y w h : ℚ) (pts : List ℚ)
    (hfs : fs.visible = true) (hang : g.angle = 0) :
    rasterRects (renderGraphicsData g ⟨ls, fs, ShapeData.rect x y w h, pts⟩) =
      [(g.worldTransform.tx + x, g.worldTransform.ty + y,
        w * g.worldTransform.a, h * g.worldTransform.d)] ∧
    docRects (exportGraphicsData cosD sinD g ⟨ls, fs, ShapeData.rect x y w h, pts⟩) =
      [(g.worldTransform.tx + x, g.worldTransform.ty + y,
        w * g.worldTransform.a, h * g.worldTransform.d)] := by
  constructor
  · rw [renderGraphicsData, rasterRects_append, rasterRects_lineOps]
    simp only [shapeOps]
    rw [rasterRects_rectOps g x y w h fs hfs]
    simp
  · rw [exportGraphicsData, docRects_append, docRects_exportLineOps]
    simp [exportShapeOps, docRects, hfs, hang]

/-- C6 (witness): the theorem on a concrete 10×20 rectangle under composed
scale (2,3): both backends output width 20 and height 60. -/
theorem C6_rect_scale_witness :
    (⟨true, 255⟩ : FillStyle).visible = true ∧ gC6.angle = 0 ∧
    rasterRects (renderGraphicsData gC6 dC6) = [(101, 202, 20, 60)] ∧
    docRects (exportGraphicsData qOne qZero gC6 dC6) = [(101, 202, 20, 60)] := by
  refine ⟨rfl, rfl, ?_⟩
  have h := C6_rect_scale_both_backends qOne qZero gC6 lsNone ⟨true, 255⟩ 1 2 10 20 [] rfl rfl
  norm_num [gC6, dC6, lsNone] at h ⊢
  exact h

/-- C7: a pointer listener dispatches at most one synthetic event; if no
graphics child passes the hit test nothing is dispatched (and no error is
raised — the handler is total); and when the reversed child list (topmost
drawn first) starts with non-hit graphics followed by a hit graphics child,
exactly that child receives exactly one synthetic event carrying the event
kind and the global point, and traversal stops at it. -/
theorem C7_pointer_dispatch (cosD sinD : ℚ → ℚ) (k : EvKind) (px py : ℚ)
    (cs : List Node) :
    (pointerHandler cosD sinD k px py cs).length ≤ 1 ∧
    ((∀ g : Graphics, Node.graphics g ∈ cs → hitTest cosD sinD px py g = false) →
      pointerHandler cosD sinD k px py cs = []) ∧
    ∀ (pre post : List Node) (g : Graphics),
      cs.reverse = pre ++ Node.graphics g :: post →
      hitTest cosD sinD px py g = true →
      (∀ g' : Graphics, Node.graphics g' ∈ pre → hitTest cosD sinD px py g' = false) →
      pointerHandler cosD sinD k px py cs = [⟨k, Node.graphics g, px, py⟩] := by
  refine ⟨?_, ?_, ?_⟩
  · unfold pointerHandler
    cases h : findHit (hitTest cosD sinD px py) cs.reverse <;> simp [h]
  · intro hall
    have hnone : findHit (hitTest cosD sinD px py) cs.reverse = none :=
      findHit_none _ _ fun g hg => hall g (List.mem_reverse.mp hg)
    simp [pointerHandler, hnone]
  · intro pre post g hrev hg hpre
    have hsome : findHit (hitTest cosD sinD px py) cs.reverse = some (Node.graphics g) := by
      rw [hrev, findHit_skip _ _ _ hpre]
      simp [findHit, hg]
    simp [pointerHandler, hsome]

/-- C7 (witness): with a missed child below a hit child, the topmost (last
added, first tested) hit child receives the single synthetic event. -/
theorem C7_pointer_dispatch_witness :
    hitTest qOne qZero 10 10 gC7hit = true ∧
    pointerHandler qOne qZero EvKind.down 10 10 csC7 =
      [⟨EvKind.down, Node.graphics gC7hit, 10, 10⟩] := by
  refine ⟨by norm_num [hitTest, rectContains, shapeHit, gC7hit, lsNone, qOne, qZero], ?_⟩
  exact (C7_pointer_dispatch qOne qZero EvKind.down 10 10 csC7).2.2
    [] [Node.graphics gC7miss] gC7hit rfl
    (by norm_num [hitTest, rectContains, shapeHit, gC7hit, lsNone, qOne, qZero])
    (by intro g' hg'; simp at hg')

/-- C8: a Polyline with exactly 2 points and a visible stroke renders, in
both backends, exactly one straight segment between the two points after
translation only — the composed scale is never applied to the points — and
a Polyline with fewer than 2 points (fewer than 4 coordinates) renders
nothing in either backend (both functions are total, so no error occurs). -/
theorem C8_polyline_two_points (cosD sinD : ℚ → ℚ) (g : Graphics) (c : ℕ)
    (w p0 p1 p2 p3 : ℚ) (fs : FillStyle) (hang : g.angle = 0) :
    (drawOps (renderGraphicsData g ⟨⟨true, c, w⟩, fs, ShapeData.poly, [p0, p1, p2, p3]⟩) =
      [SkOp.drawPolyline
        [(g.worldTransform.tx + p0, g.worldTransform.ty + p1),
         (g.worldTransform.tx + p2, g.worldTransform.ty + p3)] c w] ∧
     exportGraphicsData cosD sinD g ⟨⟨true, c, w⟩, fs, ShapeData.poly, [p0, p1, p2, p3]⟩ =
      [DocOp.line (g.worldTransform.tx + p0) (g.worldTransform.ty + p1)
        (g.worldTransform.tx + p2) (g.worldTransform.ty + p3) (convertToRGB c) w]) ∧
    ∀ (g' : Graphics) (ls : LineStyle) (fs' : FillStyle) (pts : List ℚ), pts.length < 4 →
      renderGraphicsData g' ⟨ls, fs', ShapeData.poly, pts⟩ = [] ∧
      exportGraphicsData cosD sinD g' ⟨ls, fs', ShapeData.poly, pts⟩ = [] := by
  refine ⟨⟨?_, ?_⟩, ?_⟩
  · simp [renderGraphicsData, lineOps, shapeOps, drawOps, isDrawOp, translatePts, hang]
  · simp [exportGraphicsData, exportLineOps, exportShapeOps, hang]
  · intro g' ls fs' pts hlen
    have h4 : ¬ (4 ≤ pts.length) := by omega
    constructor
    · simp [renderGraphicsData, lineOps, shapeOps, h4]
    · simp [exportGraphicsData, exportLineOps, exportShapeOps, h4]

/-- C8 (witness): the theorem on a concrete stroked 2-point polyline under
translation (100,200) and composed scale (9,9): both backends emit the
segment between (101,202) and (103,204) (the scale is not applied), and a
1-point polyline emits nothing in either backend. -/
theorem C8_polyline_witness :
    gC8.angle = 0 ∧
    drawOps (renderGraphicsData gC8 dC8) =
      [SkOp.drawPolyline [(101, 202), (103, 204)] 7 2] ∧
    exportGraphicsData qOne qZero gC8 dC8 =
      [DocOp.line 101 202 103 204 (convertToRGB 7) 2] ∧
    renderGraphicsData gC8 ⟨⟨true, 7, 2⟩, ⟨false, 0⟩, ShapeData.poly, [1, 2]⟩ = [] ∧
    exportGraphicsData qOne qZero gC8 ⟨⟨true, 7, 2⟩, ⟨false, 0⟩, ShapeData.poly, [1, 2]⟩ = [] := by
  have h := C8_polyline_two_points qOne qZero gC8 7 2 1 2 3 4 ⟨false, 0⟩ rfl
  have h2 := h.2 gC8 ⟨true, 7, 2⟩ ⟨false, 0⟩ [1, 2] (by norm_num)
  refine ⟨rfl, ?_, ?_, h2.1, h2.2⟩
  · have h1 := h.1.1
    norm_num [gC8, dC8] at h1 ⊢
    exact h1
  · have h1 := h.1.2
    norm_num [gC8, dC8] at h1 ⊢
    exact h1

/-- C9 (counterexample): the claim says device save and restore calls are
balanced around every single shape's drawing, including when the angle is
zero.  A drawn polyline with angle 0 issues one `restore` and no `save`. -/
theorem C9_unbalanced_restore_counterexample :
    restores (renderGraphicsData gC9 dC9) = 1 ∧ saves (renderGraphicsData gC9 dC9) = 0 ∧
    saves (renderGraphicsData gC9 dC9) ≠ restores (renderGraphicsData gC9 dC9) := by
  decide

/-- C9 (amended): save/restore is balanced around every rectangle, circle
and sprite drawing at every angle, and around polyline drawing at nonzero
angles — so a rotation of the output device is always undone after the
shape is drawn and never leaks to siblings; but a drawn polyline with angle
zero issues exactly one extra `restore` with no matching `save` (a no-op at
the base save level), rather than being exactly balanced. -/
theorem C9_save_restore_accounting (g : Graphics) (d : GraphicsData) (s : Sprite) :
    restores (renderGraphicsData g d) =
      saves (renderGraphicsData g d) +
        (if d.lineStyle.visible = true ∧ 4 ≤ d.points.length ∧ g.angle = 0 then 1 else 0) ∧
    restores (renderSpriteOps s) = saves (renderSpriteOps s) := by
  constructor
  · rw [renderGraphicsData, restores_append, saves_append, lineOps_counts,
      shapeOps_balanced]
    omega
  · rcases s with ⟨url, tw, th, wt, ang, wa, tint, bd⟩
    cases url with
    | none => rfl
    | some u =>
      by_cases h3 : ang = 0 <;>
        simp [renderSpriteOps, saves, restores, h3]

/-- C10: the pointer listeners only ever match `PIXI.Graphics` children:
every synthetic pointer event dispatched targets a graphics node, so a
Sprite child is never matched and never receives a synthetic pointer event,
even if the pointer lies inside the sprite's drawn bounds and the sprite
has registered handlers. -/
theorem C10_sprite_never_dispatched (cosD sinD : ℚ → ℚ) (k : EvKind) (px py : ℚ)
    (cs : List Node) :
    (pointerHandler cosD sinD k px py cs).all (fun e => e.target.isGraphicsNode) = true := by
  unfold pointerHandler
  cases h : findHit (hitTest cosD sinD px py) cs.reverse with
  | none => rfl
  | some n =>
    simp [List.all_cons]
    exact findHit_isGraphics _ _ _ h

end PixiSkia
